import Mathlib

/-!
Shallow embedding of `src/satveg_api/satveg_api.py` (SATVeg API client).

The module has one class, `Series`, with methods `get_json`, `get`,
`from_csv`, and a free function `to_learn`.  The network exchange
(`requests.get`) and the csv parse (`pandas.read_csv`) are external
collaborators; they are modelled as explicit parameters (a remote outcome
per request, and an already-parsed input table).  Python dicts/JSON values
are modelled by the inductive `Json`; a pandas `DataFrame` is a column-name
list plus a row-major grid of cells, where a cell is either a value or the
missing marker `Cell.na` (pandas `NaN`/`None`).  Fallible Python code
(raised exceptions) is modelled with `Except PyError`.
-/

namespace SatvegApi

/-- A JSON / Python value.  Numbers are modelled as rationals; the client
never computes with them, it only moves them around, so only their identity
matters. -/
inductive Json where
  | null : Json
  | jbool : Bool → Json
  | num : Rat → Json
  | str : String → Json
  | arr : List Json → Json
  | obj : List (String × Json) → Json

/-- A Python exception, as raised by the library code or by the pandas /
json primitives it calls. -/
inductive PyError where
  | jsonDecodeError : PyError
  | keyError : String → PyError
  | attributeError : String → PyError
  | typeError : String → PyError
  | assertionError : String → PyError
  | valueError : String → PyError
  | exception : String → PyError
deriving DecidableEq

/-- The outcome of the `requests.get` call in `get_json` (line 69), seen
from the client: either the call raised some exception (`exn e`, where `e`
is the exception's description — the code's bare `except:` catches every
type), or a response arrived with a status code and a body text.  The body
is recorded as the result of `json.loads` on the text: `some j` when the
text parses to the JSON value `j`, `none` when it is not valid JSON (in
which case `json.loads` raises `json.JSONDecodeError`). -/
inductive RemoteOutcome where
  | exn : String → RemoteOutcome
  | resp : Nat → Option Json → RemoteOutcome

/-- The `Series` class: configuration stored by `__init__` (lines 25-32). -/
structure Series where
  api_token : String
  profile_type : String := "ndvi"
  satellite : String := "terra"
  pre_filter : Int := 3
  filter : Option String := none
  filter_parameter : Option Int := none
  url : String := "https://api.cnptia.embrapa.br/satveg/v1/series"

/-- The headers and query parameters built by `get_json` (lines 56-66).
The HTTP exchange answering this request is external; its outcome is the
`RemoteOutcome` parameter of `Series.get_json`. -/
structure Request where
  url : String
  authorization : String
  tipoPerfil : String
  satelite : String
  latitude : Rat
  longitude : Rat
  preFiltro : Int
  filtro : Option String
  parametroFiltro : Option Int

/-- Lines 56-66 of `get_json`: the request sent to the service. -/
def Series.request (s : Series) (latitude longitude : Rat) : Request :=
  { url := s.url
    authorization := "Bearer " ++ s.api_token
    tipoPerfil := s.profile_type
    satelite := s.satellite
    latitude := latitude
    longitude := longitude
    preFiltro := s.pre_filter
    filtro := s.filter
    parametroFiltro := s.filter_parameter }

/-- The dict returned by `get_json`: every `return` in lines 68-98 builds a
dict with exactly the four keys `success`, `status_code`, `message`,
`data`, so the result is modelled as a record with exactly those fields. -/
structure LookupResult where
  success : Bool
  status_code : Nat
  message : String
  data : Json

/-- `Series.get_json` (lines 34-98).  The `try` wraps only the
`requests.get` call: an exception there returns the 408 dict.  A 401
response returns the invalid-credentials dict; a 200 response returns the
parsed body as `data` — and `json.loads(response.text)` (line 90) is
*outside* the `try`, so a 200 response whose text is not valid JSON raises
`json.JSONDecodeError` out of the method; any other status returns the
could-not-be-processed dict. -/
def Series.get_json (s : Series) (latitude longitude : Rat)
    (remote : RemoteOutcome) : Except PyError LookupResult :=
  let _req := s.request latitude longitude
  match remote with
  | .exn _ =>
      .ok { success := false, status_code := 408,
            message := "Erro de conexão.", data := .obj [] }
  | .resp status_code text =>
      if status_code = 401 then
        .ok { success := false, status_code := 401,
              message := "Credenciais inválidas. Verifique se você forneceu o token de autenticação correto.",
              data := .obj [] }
      else if status_code = 200 then
        match text with
        | some parsed =>
            .ok { success := true, status_code := 200,
                  message := "Sucesso.", data := parsed }
        | none => .error .jsonDecodeError
      else
        .ok { success := false, status_code := status_code,
              message := "A requisição não pode ser processada.", data := .obj [] }

/-! ## DataFrames

A pandas `DataFrame` is modelled as a list of column names plus a row-major
grid of cells.  A cell is a value or the missing marker (`NaN`/`None`). -/

/-- One cell of a DataFrame: missing, or a value. -/
inductive Cell where
  | na : Cell
  | of : Json → Cell

/-- A pandas DataFrame with the default `RangeIndex` (all frames built by
this library have one): column names plus row-major cells. -/
structure DataFrame where
  columns : List String
  rows : List (List Cell)

/-- `df[c]` as a list of cells (`None` when the column is missing, which in
Python raises `KeyError`; callers of this model turn `none` into that). -/
def DataFrame.col (df : DataFrame) (c : String) : Option (List Cell) :=
  (df.columns.findIdx? (fun x => x == c)).map
    (fun j => df.rows.map (fun r => r.getD j Cell.na))

/-- Row-wise part of `a.join(b)` for frames with default range indexes:
left join on the index keeps all of `a`'s rows in order; a missing row of
`b` contributes `NaN` cells (`k` = width of `b`); extra rows of `b` are
dropped. -/
def joinRows : List (List Cell) → List (List Cell) → Nat → List (List Cell)
  | [], _, _ => []
  | r :: rs, [], k => (r ++ List.replicate k Cell.na) :: joinRows rs [] k
  | r :: rs, t :: ts, k => (r ++ t) :: joinRows rs ts k

/-- `a.join(b)` (lines 134, 137, 157, 160): pandas raises `ValueError` when
the two frames share a column name (no suffix is passed); otherwise it
aligns on the index (here: the default range index on both sides). -/
def DataFrame.join (a b : DataFrame) : Except PyError DataFrame :=
  if a.columns.any (fun c => b.columns.contains c) then
    .error (.valueError "columns overlap but no suffix specified")
  else
    .ok ⟨a.columns ++ b.columns, joinRows a.rows b.rows b.columns.length⟩

/-- `df.drop(col, axis=1)` (lines 135, 158).  Used only on frames that do
carry the column (pandas would raise a `KeyError` otherwise). -/
def DataFrame.drop (df : DataFrame) (col : String) : DataFrame :=
  ⟨df.columns.filter (fun c => c != col),
   df.rows.map (fun r => ((df.columns.zip r).filter (fun p => p.1 != col)).map Prod.snd)⟩

/-- The key/value list of a JSON value, as `pandas.Series(d)` sees it.  The
`data` payloads reaching this model are JSON objects: the parsed service
body (documented shape `{listaSerie: [...], listaDatas: [...]}`) or the
empty dict of a failure result. -/
def Json.kvs : Json → List (String × Json)
  | .obj l => l
  | _ => []

/-- Key lookup in a JSON object. -/
def Json.find (j : Json) (k : String) : Option Json :=
  (j.kvs.find? (fun kv => kv.1 == k)).map Prod.snd

/-- Union of the dicts' keys in order of first appearance — the column
index produced by `series_of_dicts.apply(pandas.Series)`. -/
def unionKeys : List Json → List String
  | [] => []
  | d :: ds =>
      let ks := d.kvs.map Prod.fst
      ks ++ (unionKeys ds).filter (fun k => !ks.contains k)

/-- `response_data['data'].apply(pandas.Series)` (lines 134, 157): one
column per distinct dict key across the rows, in order of first
appearance; a row lacking a key gets `NaN` in that column. -/
def expandDicts (ds : List Json) : DataFrame :=
  let cols := unionKeys ds
  ⟨cols, ds.map (fun d => cols.map (fun c =>
    match d.find c with
    | some v => Cell.of v
    | none => Cell.na))⟩

/-- The value held by a cell; `data` cells are always present (every
`get_json` result dict has a `data` entry). -/
def Cell.json : Cell → Json
  | .na => .null
  | .of j => j

/-- `pandas.DataFrame(response)` (lines 133, 156) for `response` the list
of `get_json` result dicts: columns in key order of the dicts; for the
empty list pandas yields an empty frame with no columns at all. -/
def responseFrame (response : List LookupResult) : DataFrame :=
  match response with
  | [] => ⟨[], []⟩
  | _ => ⟨["success", "status_code", "message", "data"],
          response.map (fun r =>
            [Cell.of (.jbool r.success), Cell.of (.num (r.status_code : Rat)),
             Cell.of (.str r.message), Cell.of r.data])⟩

/-- Lines 133-135 / 156-158: build the response frame, expand its `data`
column with `apply(pandas.Series)`, join the expansion on, drop `data`.
Selecting `response_data['data']` raises `KeyError` when the column is
absent — which happens exactly when `response` is the empty list, since
`pandas.DataFrame([])` has no columns. -/
def expandAndJoin (response : List LookupResult) : Except PyError DataFrame := do
  let response_data := responseFrame response
  let dataCells ← match response_data.col "data" with
    | some cs => Except.ok cs
    | none => Except.error (.keyError "data")
  let expanded := expandDicts (dataCells.map Cell.json)
  let response_data ← response_data.join expanded
  Except.ok (response_data.drop "data")

/-- `getattr(row_tuple, name)` for a row of `itertuples()`: `AttributeError`
when the frame has no such column. -/
def attr (cols : List String) (row : List Cell) (name : String) : Except PyError Cell :=
  match cols.findIdx? (fun c => c == name) with
  | some j => .ok (row.getD j Cell.na)
  | none => .error (.attributeError name)

/-- The coordinate attribute of a row, as a number.  `requests` would send
any value through as a query parameter; the embedding types the coordinate
as a rational (what `read_csv` yields for a numeric column) because the
exchange's outcome is supplied by the `remote` environment anyway. -/
def attrNum (cols : List String) (row : List Cell) (name : String) : Except PyError Rat :=
  match attr cols row name with
  | .ok (Cell.of (.num q)) => .ok q
  | .ok _ => .error (.typeError name)
  | .error e => .error e

/-- The `for coordinates in df.itertuples(): response.append(self.get_json(...))`
loop (lines 130-131, 153-154): one `get_json` call per row, in row order;
`remote i` is the network outcome of the `i`-th call. -/
def fetchRows (s : Series) (cols : List String) (remote : Nat → RemoteOutcome) :
    Nat → List (List Cell) → Except PyError (List LookupResult)
  | _, [] => .ok []
  | i, row :: rest => do
      let lat ← attrNum cols row "latitude"
      let lon ← attrNum cols row "longitude"
      let res ← s.get_json lat lon (remote i)
      let more ← fetchRows s cols remote (i + 1) rest
      Except.ok (res :: more)

/-- The one-row input frame built by `Series.get` (lines 114-126). -/
def inputFrame (latitude longitude : Rat) (label : Option String) : DataFrame :=
  match label with
  | none =>
      ⟨["latitude", "longitude"],
       [[Cell.of (.num latitude), Cell.of (.num longitude)]]⟩
  | some l =>
      ⟨["label", "latitude", "longitude"],
       [[Cell.of (.str l), Cell.of (.num latitude), Cell.of (.num longitude)]]⟩

/-- `Series.get` (lines 100-137): build the one-row input frame for the
point, run the fetch loop over it, expand the responses, join onto the
input frame. -/
def Series.get (s : Series) (latitude longitude : Rat) (label : Option String)
    (remote : Nat → RemoteOutcome) : Except PyError DataFrame := do
  let input_df := inputFrame latitude longitude label
  let response ← fetchRows s input_df.columns remote 0 input_df.rows
  let response_data ← expandAndJoin response
  input_df.join response_data

/-- `Series.from_csv` (lines 139-160): `pandas.read_csv` is an external
collaborator, so the already-parsed csv is the `input_data` argument; the
rest is the same per-row fetch-and-expand pipeline as `Series.get`. -/
def Series.from_csv (s : Series) (input_data : DataFrame)
    (remote : Nat → RemoteOutcome) : Except PyError DataFrame := do
  let response ← fetchRows s input_data.columns remote 0 input_data.rows
  let response_data ← expandAndJoin response
  input_data.join response_data

/-! ## to_learn -/

/-- Python's `x == True` for a cell value: `True` compares equal to `True`
and so do the numbers `1`/`1.0` (`bool` is an `int` in Python); every other
value — `NaN` included — compares false. -/
def Cell.isTrue : Cell → Bool
  | .of (.jbool b) => b
  | .of (.num q) => q == 1
  | _ => false

/-- `data.loc[data['success'] == True]` (line 172), as the selected rows in
order.  The subscript `data['success']` raises `KeyError` when the column
is absent; `loc` allocates a fresh frame and does not touch `data`. -/
def filterSuccess (data : DataFrame) : Except PyError (List (List Cell)) :=
  match data.col "success" with
  | some cs => .ok (((cs.zip data.rows).filter (fun p => p.1.isTrue)).map Prod.snd)
  | none => .error (.keyError "success")

/-- `pandas.DataFrame(lists, columns=cols)` for a list of python lists
(line 177): the grid's width is the longest row's length, shorter rows are
padded on the right with `None`, and pandas raises an `AssertionError`
(".. columns passed, passed data had .. columns") when `len(cols)` differs
from that width. -/
def frameOfLists (lists : List (List Json)) (cols : List String) : Except PyError DataFrame :=
  let width := lists.foldr (fun l m => max l.length m) 0
  if cols.length = width then
    .ok ⟨cols, lists.map (fun l => l.map Cell.of ++ List.replicate (width - l.length) Cell.na)⟩
  else
    .error (.assertionError (toString cols.length ++
      " columns passed, passed data had " ++ toString width ++ " columns"))

/-- The elements of a cell holding a python list.  The `listaSerie` /
`listaDatas` cells of well-formed results hold the service's parallel
arrays; a cell of any other shape (e.g. the `NaN` of a row that lacked the
key) makes line 177 fail inside pandas, reported here as `TypeError`. -/
def Cell.arr : Cell → Except PyError (List Json)
  | .of (.arr l) => .ok l
  | _ => .error (.typeError "expected a list cell")

/-- A `listaDatas` entry used as a column label of the reshaped frame.  The
service's dates are ISO date strings and this embedding's column labels are
strings, so non-string entries are outside the modelled domain. -/
def Json.colName : Json → Except PyError String
  | .str s => .ok s
  | _ => .error (.typeError "expected a string column label")

/-- `df.insert(loc=0, column=..., value=...)` (line 180): prepends a column
in place, mutating `df`; pandas raises `ValueError` when a column of that
name already exists. -/
def DataFrame.insert (df : DataFrame) (column : String) (value : List Cell) :
    Except PyError DataFrame :=
  if df.columns.contains column then
    .error (.valueError ("cannot insert " ++ column ++ ", already exists"))
  else
    .ok ⟨column :: df.columns, (value.zip df.rows).map (fun p => p.1 :: p.2)⟩

/-- `to_learn` (lines 162-182): keep the `success == True` rows; raise when
none remain; otherwise reshape — one output row per kept row, the kept
row's `listaSerie` list laid out positionally under a header taken from the
*first* kept row's `listaDatas` (line 177), and a `label` column inserted
in front when the source frame carried one (lines 179-180). -/
def to_learn (data : DataFrame) : Except PyError DataFrame := do
  let learn_rows ← filterSuccess data
  if learn_rows.length = 0 then
    Except.error (.exception "Nenhuma das séries possuem dados válidos.")
  else do
    let learn_data : DataFrame := ⟨data.columns, learn_rows⟩
    let serieCells ← match learn_data.col "listaSerie" with
      | some cs => Except.ok cs
      | none => Except.error (.keyError "listaSerie")
    let lists ← serieCells.mapM Cell.arr
    let datasCells ← match learn_data.col "listaDatas" with
      | some cs => Except.ok cs
      | none => Except.error (.keyError "listaDatas")
    let datas ← (datasCells.getD 0 Cell.na).arr
    let header ← datas.mapM Json.colName
    let response_data ← frameOfLists lists header
    if learn_data.columns.contains "label" then
      match learn_data.col "label" with
      | some labelCells => response_data.insert "label" labelCells
      | none => Except.error (.keyError "label")
    else
      Except.ok response_data

/-- State-passing rendering of `to_learn`, making explicit which frame each
pandas operation writes to.  The pair is (the argument frame after the
call, the call's outcome).  `data.loc[...]` (line 172) allocates a fresh
frame and leaves its receiver untouched; `pandas.DataFrame(...)` (line 177)
allocates; the single in-place operation, `insert` (line 180), is applied
to that freshly allocated frame — so `data` flows through unchanged on
every path, error paths included. -/
def to_learn_state (data : DataFrame) : DataFrame × Except PyError DataFrame :=
  match filterSuccess data with
  | .error e => (data, .error e)
  | .ok learn_rows =>
    if learn_rows.length = 0 then
      (data, .error (.exception "Nenhuma das séries possuem dados válidos."))
    else
      let learn_data : DataFrame := ⟨data.columns, learn_rows⟩
      match learn_data.col "listaSerie" with
      | none => (data, .error (.keyError "listaSerie"))
      | some serieCells =>
        match serieCells.mapM Cell.arr with
        | .error e => (data, .error e)
        | .ok lists =>
          match learn_data.col "listaDatas" with
          | none => (data, .error (.keyError "listaDatas"))
          | some datasCells =>
            match (datasCells.getD 0 Cell.na).arr with
            | .error e => (data, .error e)
            | .ok datas =>
              match datas.mapM Json.colName with
              | .error e => (data, .error e)
              | .ok header =>
                match frameOfLists lists header with
                | .error e => (data, .error e)
                | .ok response_data =>
                  if learn_data.columns.contains "label" then
                    match learn_data.col "label" with
                    | some labelCells => (data, response_data.insert "label" labelCells)
                    | none => (data, .error (.keyError "label"))
                  else
                    (data, .ok response_data)

/-! ## Guards used by the amended batch statements -/

/-- The columns of the frame `pandas.DataFrame(response)` builds from the
`get_json` result dicts. -/
def envelopeCols : List String := ["success", "status_code", "message", "data"]

/-- Safety of one network outcome for the batch pipeline: a 200 response
must have a parseable body (else `json.loads` raises out of `get_json`,
aborting the batch) whose keys collide neither with the envelope columns
nor with the input frame's own columns (else a pandas `join` raises).  The
service's documented payload keys `listaSerie`/`listaDatas` satisfy this
for any points file that does not itself use those names. -/
def remoteSafe (inputCols : List String) (o : RemoteOutcome) : Bool :=
  match o with
  | .exn _ => true
  | .resp status text =>
      if status = 200 then
        match text with
        | none => false
        | some j =>
            j.kvs.all (fun kv => !envelopeCols.contains kv.1 && !inputCols.contains kv.1)
      else true

/-- The row offers numeric `latitude` and `longitude` attributes (what a
points csv parsed by `read_csv` provides). -/
def rowCoordsOk (cols : List String) (row : List Cell) : Bool :=
  (match attrNum cols row "latitude" with | .ok _ => true | .error _ => false) &&
  (match attrNum cols row "longitude" with | .ok _ => true | .error _ => false)

/-- The input frame's own columns stay clear of the three envelope columns
that survive the `drop('data')` — otherwise the final `join` raises. -/
def inputColsOk (cols : List String) : Bool :=
  !cols.contains "success" && !cols.contains "status_code" && !cols.contains "message"

/-! ## Concrete instances -/

/-- A client with default configuration. -/
def s0 : Series := { api_token := "token" }

/-- The 200 body from the claims: `{"listaSerie":[0.1,0.2],"listaDatas":["2020-01-01","2020-01-02"]}`. -/
def goodBody : Json :=
  .obj [("listaSerie", .arr [.num (1/10), .num (2/10)]),
        ("listaDatas", .arr [.str "2020-01-01", .str "2020-01-02"])]

/-- A 200 body whose two parallel sequences have different lengths. -/
def mismatchedBody : Json :=
  .obj [("listaSerie", .arr [.num (1/10), .num (2/10)]),
        ("listaDatas", .arr [.str "2020-01-01"])]

/-- A two-point csv (already parsed): latitude/longitude only. -/
def csv2 : DataFrame :=
  ⟨["latitude", "longitude"],
   [[Cell.of (.num 1), Cell.of (.num 2)],
    [Cell.of (.num 3), Cell.of (.num 4)]]⟩

/-- Remote behaviour for `csv2`: the first point succeeds with `goodBody`,
the second hits a transport failure. -/
def remote2 : Nat → RemoteOutcome :=
  fun i => if i = 0 then .resp 200 (some goodBody) else .exn "ConnectionError"

/-- The table `from_csv` builds for `csv2` under `remote2`. -/
def csv2Table : DataFrame :=
  ⟨["latitude", "longitude", "success", "status_code", "message", "listaSerie", "listaDatas"],
   [[Cell.of (.num 1), Cell.of (.num 2), Cell.of (.jbool true),
     Cell.of (.num ((200 : Nat) : Rat)), Cell.of (.str "Sucesso."),
     Cell.of (.arr [.num (1/10), .num (2/10)]),
     Cell.of (.arr [.str "2020-01-01", .str "2020-01-02"])],
    [Cell.of (.num 3), Cell.of (.num 4), Cell.of (.jbool false),
     Cell.of (.num ((408 : Nat) : Rat)), Cell.of (.str "Erro de conexão."),
     Cell.na, Cell.na]]⟩

/-- A result table whose two `success` rows carry date/value sequences of
different lengths: the first has one observation, the second two. -/
def raggedTable : DataFrame :=
  ⟨["success", "listaSerie", "listaDatas"],
   [[Cell.of (.jbool true), Cell.of (.arr [.num 1]), Cell.of (.arr [.str "d1"])],
    [Cell.of (.jbool true), Cell.of (.arr [.num 2, .num 3]), Cell.of (.arr [.str "d1", .str "d2"])]]⟩

/-- A well-formed labelled result table: rows one and three succeeded with
the same two observation dates, row two failed. -/
def okTable : DataFrame :=
  ⟨["label", "latitude", "longitude", "success", "status_code", "message", "listaSerie", "listaDatas"],
   [[Cell.of (.str "soy"), Cell.of (.num 1), Cell.of (.num 2), Cell.of (.jbool true),
     Cell.of (.num ((200 : Nat) : Rat)), Cell.of (.str "Sucesso."),
     Cell.of (.arr [.num 5, .num 6]), Cell.of (.arr [.str "d1", .str "d2"])],
    [Cell.of (.str "corn"), Cell.of (.num 3), Cell.of (.num 4), Cell.of (.jbool false),
     Cell.of (.num ((408 : Nat) : Rat)), Cell.of (.str "Erro de conexão."), Cell.na, Cell.na],
    [Cell.of (.str "rice"), Cell.of (.num 5), Cell.of (.num 6), Cell.of (.jbool true),
     Cell.of (.num ((200 : Nat) : Rat)), Cell.of (.str "Sucesso."),
     Cell.of (.arr [.num 7, .num 8]), Cell.of (.arr [.str "d1", .str "d2"])]]⟩

/-- `okTable` without its `label` column. -/
def okTableNoLabel : DataFrame :=
  ⟨["latitude", "longitude", "success", "status_code", "message", "listaSerie", "listaDatas"],
   [[Cell.of (.num 1), Cell.of (.num 2), Cell.of (.jbool true),
     Cell.of (.num ((200 : Nat) : Rat)), Cell.of (.str "Sucesso."),
     Cell.of (.arr [.num 5, .num 6]), Cell.of (.arr [.str "d1", .str "d2"])],
    [Cell.of (.num 3), Cell.of (.num 4), Cell.of (.jbool false),
     Cell.of (.num ((408 : Nat) : Rat)), Cell.of (.str "Erro de conexão."), Cell.na, Cell.na],
    [Cell.of (.num 5), Cell.of (.num 6), Cell.of (.jbool true),
     Cell.of (.num ((200 : Nat) : Rat)), Cell.of (.str "Sucesso."),
     Cell.of (.arr [.num 7, .num 8]), Cell.of (.arr [.str "d1", .str "d2"])]]⟩

/-! ## Theorems about get_json -/

/-- Helper: `get_json` returns a value for every network outcome except a
200 response with an unparseable body. -/
theorem get_json_total (s : Series) (lat lon : Rat) (remote : RemoteOutcome)
    (h : remote ≠ .resp 200 none) :
    ∃ r : LookupResult, s.get_json lat lon remote = .ok r := by
  cases remote with
  | exn e => exact ⟨_, rfl⟩
  | resp code text =>
    by_cases h401 : code = 401
    · subst h401; exact ⟨_, rfl⟩
    · by_cases h200 : code = 200
      · subst h200
        cases text with
        | some j => exact ⟨_, rfl⟩
        | none => exact absurd rfl h
      · exact ⟨{ success := false, status_code := code,
                 message := "A requisição não pode ser processada.", data := .obj [] },
               by simp only [Series.get_json]; rw [if_neg h401, if_neg h200]⟩

/-- C4: any exception raised by the request — regardless of its kind — is
collapsed by `get_json` into the single generic connection-error result:
success=false, status_code=408, the connection-error message, empty
payload. -/
theorem get_json_transport_collapse (s : Series) (lat lon : Rat) (e : String) :
    s.get_json lat lon (.exn e) =
      .ok { success := false, status_code := 408,
            message := "Erro de conexão.", data := .obj [] } := rfl

/-- C5: a 401 response yields success=false, status_code=401, the
invalid-credentials message and an empty payload; any status other than
200 and 401 yields success=false, that same status code, the
could-not-be-processed message and an empty payload. -/
theorem get_json_error_statuses (s : Series) (lat lon : Rat) (text : Option Json) :
    s.get_json lat lon (.resp 401 text) =
      .ok { success := false, status_code := 401,
            message := "Credenciais inválidas. Verifique se você forneceu o token de autenticação correto.",
            data := .obj [] } ∧
    ∀ code : Nat, code ≠ 200 → code ≠ 401 →
      s.get_json lat lon (.resp code text) =
        .ok { success := false, status_code := code,
              message := "A requisição não pode ser processada.", data := .obj [] } := by
  refine ⟨rfl, fun code h200 h401 => ?_⟩
  simp only [Series.get_json]
  rw [if_neg h401, if_neg h200]

/-- Witness for C5 at status 500. -/
theorem get_json_error_statuses_witness :
    s0.get_json 0 0 (.resp 500 none) =
      .ok { success := false, status_code := 500,
            message := "A requisição não pode ser processada.", data := .obj [] } :=
  (get_json_error_statuses s0 0 0 none).2 500 (by decide) (by decide)

/-- C6: a 200 response whose body parses to
`{"listaSerie":[0.1,0.2],"listaDatas":["2020-01-01","2020-01-02"]}` yields
success=true, status_code=200 and exactly that parsed body as payload; and
no length validation is performed — a body whose two sequences have
different lengths goes through identically. -/
theorem get_json_success_payload (s : Series) (lat lon : Rat) :
    s.get_json lat lon (.resp 200 (some goodBody)) =
      .ok { success := true, status_code := 200, message := "Sucesso.", data := goodBody } ∧
    s.get_json lat lon (.resp 200 (some mismatchedBody)) =
      .ok { success := true, status_code := 200, message := "Sucesso.", data := mismatchedBody } :=
  ⟨rfl, rfl⟩

/-- C10 (implicit): every value `get_json` returns is a `LookupResult` — a
record with exactly the fields success, status_code, message, data, as
every `return` dict in lines 68-98 carries exactly those four keys — in
which success holds iff status_code is 200 and the payload is the empty
dict whenever success is false. -/
theorem get_json_result_invariant (s : Series) (lat lon : Rat) (remote : RemoteOutcome)
    (r : LookupResult) (h : s.get_json lat lon remote = .ok r) :
    (r.success = true ↔ r.status_code = 200) ∧ (r.success = false → r.data = .obj []) := by
  cases remote with
  | exn e =>
    simp only [Series.get_json, Except.ok.injEq] at h
    subst h
    exact ⟨by simp, fun _ => rfl⟩
  | resp code text =>
    by_cases h401 : code = 401
    · subst h401
      simp only [Series.get_json, reduceIte, Except.ok.injEq] at h
      subst h
      exact ⟨by simp, fun _ => rfl⟩
    · by_cases h200 : code = 200
      · subst h200
        cases text with
        | some j =>
          simp only [Series.get_json] at h
          rw [if_neg (by decide : ¬(200 = 401)), if_pos trivial] at h
          simp only [Except.ok.injEq] at h
          subst h
          exact ⟨by simp, by simp⟩
        | none =>
          simp only [Series.get_json] at h
          rw [if_neg (by decide : ¬(200 = 401)), if_pos trivial] at h
          cases h
      · rw [show s.get_json lat lon (.resp code text) =
              .ok { success := false, status_code := code,
                    message := "A requisição não pode ser processada.", data := .obj [] } by
              simp only [Series.get_json]; rw [if_neg h401, if_neg h200]] at h
        simp only [Except.ok.injEq] at h
        subst h
        exact ⟨by simpa using fun hc => (h200 hc).elim, fun _ => rfl⟩

/-- Witness for C10 at a transport failure. -/
theorem get_json_result_invariant_witness :
    (({ success := false, status_code := 408, message := "Erro de conexão.",
        data := .obj [] } : LookupResult).success = true ↔
      ({ success := false, status_code := 408, message := "Erro de conexão.",
         data := .obj [] } : LookupResult).status_code = 200) ∧
    (({ success := false, status_code := 408, message := "Erro de conexão.",
        data := .obj [] } : LookupResult).success = false →
      ({ success := false, status_code := 408, message := "Erro de conexão.",
         data := .obj [] } : LookupResult).data = .obj []) :=
  get_json_result_invariant s0 0 0 (.exn "boom") _ rfl

/-- C1 counterexample: the claim includes 200 responses whose body is not
valid JSON among the inputs for which `get_json` never raises — but
`json.loads` (line 90) sits outside the `try`, so exactly there the method
raises `json.JSONDecodeError` instead of returning a value. -/
theorem get_json_raises_on_bad_json :
    s0.get_json 0 0 (.resp 200 none) = .error .jsonDecodeError := rfl

/-- C1 (amended): for any latitude/longitude and any remote outcome other
than a 200 response with a body that is not valid JSON, `get_json` never
raises and returns one of the four defined success/status combinations
(408 transport, 401 auth, 200 success, other status). -/
theorem get_json_no_raise (s : Series) (lat lon : Rat) (remote : RemoteOutcome)
    (h : remote ≠ .resp 200 none) :
    ∃ r : LookupResult, s.get_json lat lon remote = .ok r ∧
      ((r.success = false ∧ r.status_code = 408) ∨
       (r.success = false ∧ r.status_code = 401) ∨
       (r.success = true ∧ r.status_code = 200) ∨
       (r.success = false ∧ r.status_code ≠ 200 ∧ r.status_code ≠ 401)) := by
  cases remote with
  | exn e => exact ⟨_, rfl, Or.inl ⟨rfl, rfl⟩⟩
  | resp code text =>
    by_cases h401 : code = 401
    · subst h401; exact ⟨_, rfl, Or.inr (Or.inl ⟨rfl, rfl⟩)⟩
    · by_cases h200 : code = 200
      · subst h200
        cases text with
        | some j => exact ⟨_, rfl, Or.inr (Or.inr (Or.inl ⟨rfl, rfl⟩))⟩
        | none => exact absurd rfl h
      · exact ⟨{ success := false, status_code := code,
                 message := "A requisição não pode ser processada.", data := .obj [] },
               by simp only [Series.get_json]; rw [if_neg h401, if_neg h200],
               Or.inr (Or.inr (Or.inr ⟨rfl, h200, h401⟩))⟩

/-- Witness for the amended C1 at a transport failure. -/
theorem get_json_no_raise_witness :
    ∃ r : LookupResult, s0.get_json 0 0 (.exn "timeout") = .ok r ∧
      ((r.success = false ∧ r.status_code = 408) ∨
       (r.success = false ∧ r.status_code = 401) ∨
       (r.success = true ∧ r.status_code = 200) ∨
       (r.success = false ∧ r.status_code ≠ 200 ∧ r.status_code ≠ 401)) :=
  get_json_no_raise s0 0 0 (.exn "timeout") (by intro hc; cases hc)

/-! ## Theorems about the batch table layout -/

/-- C2 counterexample: for the two-point batch where the first point
succeeds with dates 2020-01-01/2020-01-02 and the second fails, the claim
requires the table to carry columns named by those date strings — but the
table `from_csv` builds has no date-named columns at all. -/
theorem from_csv_no_date_columns :
    s0.from_csv csv2 remote2 = .ok csv2Table ∧
    csv2Table.columns.contains "2020-01-01" = false ∧
    csv2Table.columns.contains "2020-01-02" = false := ⟨rfl, rfl, rfl⟩

/-- C2 (amended): besides the input-echo and envelope columns, the result
table has one column per distinct payload *key* seen across the rows —
`listaSerie` and `listaDatas` for well-formed responses — each cell holding
that row's whole sequence, and a failed row leaves those cells empty.  For
the two-point scenario of the claim: the columns are exactly latitude,
longitude, success, status_code, message, listaSerie, listaDatas, and the
failing row's listaSerie / listaDatas cells are both empty.  (The per-date
expansion the claim describes happens only later, in `to_learn`.) -/
theorem from_csv_payload_key_columns :
    s0.from_csv csv2 remote2 = .ok csv2Table ∧
    csv2Table.columns = ["latitude", "longitude", "success", "status_code",
                         "message", "listaSerie", "listaDatas"] ∧
    csv2Table.col "listaSerie" =
      some [Cell.of (.arr [.num (1/10), .num (2/10)]), Cell.na] ∧
    csv2Table.col "listaDatas" =
      some [Cell.of (.arr [.str "2020-01-01", .str "2020-01-02"]), Cell.na] :=
  ⟨rfl, rfl, rfl, rfl⟩

/-- C3 counterexample: on the empty sequence of points (a header-only csv)
`from_csv` raises `KeyError('data')` — the loop appends nothing, so
`pandas.DataFrame([])` has no columns and `response_data['data']` fails —
instead of returning a zero-row table. -/
theorem from_csv_empty_raises :
    s0.from_csv ⟨["latitude", "longitude"], []⟩ remote2 =
      .error (.keyError "data") := rfl

/-! ## Theorems about to_learn -/

/-- C9: `to_learn` is a pure, side-effect-free transformation: in the
state-passing rendering that tracks the argument frame through every
pandas operation of lines 172-181 (the one in-place operation, `insert`,
targets the freshly allocated reshaped frame), the argument frame comes
back unchanged on every path — reshaped result and no-valid-data error
alike — and the outcome is exactly `to_learn`'s. -/
theorem to_learn_pure (data : DataFrame) :
    to_learn_state data = (data, to_learn data) := by
  unfold to_learn_state to_learn
  simp only [bind, Except.bind]
  cases hfs : filterSuccess data with
  | error e => rfl
  | ok learn =>
    dsimp only
    by_cases hlen : learn.length = 0
    · simp only [if_pos hlen]
    · simp only [if_neg hlen]
      cases hcol : (DataFrame.mk data.columns learn).col "listaSerie" with
      | none => rfl
      | some serieCells =>
        dsimp only
        cases hm : serieCells.mapM Cell.arr with
        | error e => rfl
        | ok lists =>
          dsimp only
          cases hdc : (DataFrame.mk data.columns learn).col "listaDatas" with
          | none => rfl
          | some datasCells =>
            dsimp only
            cases ha : (datasCells.getD 0 Cell.na).arr with
            | error e => rfl
            | ok datas =>
              dsimp only
              cases hh : datas.mapM Json.colName with
              | error e => rfl
              | ok header =>
                dsimp only
                cases hf : frameOfLists lists header with
                | error e => rfl
                | ok response_data =>
                  dsimp only
                  by_cases hlab : data.columns.contains "label" = true
                  · simp only [hlab, if_pos]
                    cases hlc : (DataFrame.mk data.columns learn).col "label" with
                    | none => rfl
                    | some labelCells => rfl
                  · simp only [Bool.not_eq_true] at hlab
                    simp only [hlab]
                    rfl

/-! ## Batch pipeline lemmas and the row-count theorem -/

/-- Helper: a safe outcome is not a 200 response with an unparseable body. -/
theorem remoteSafe_ne_decode {cols : List String} {o : RemoteOutcome}
    (h : remoteSafe cols o = true) : o ≠ .resp 200 none := by
  intro he
  subst he
  simp [remoteSafe] at h

/-- Helper: a safe 200 outcome's payload keys avoid the envelope columns
and the input columns. -/
theorem remoteSafe_keys {cols : List String} {d : Json}
    (h : remoteSafe cols (.resp 200 (some d)) = true) :
    ∀ kv ∈ d.kvs, kv.1 ∉ envelopeCols ∧ kv.1 ∉ cols := by
  have h' : d.kvs.all (fun kv => !envelopeCols.contains kv.1 && !cols.contains kv.1) = true := by
    rw [show remoteSafe cols (.resp 200 (some d)) =
        d.kvs.all (fun kv => !envelopeCols.contains kv.1 && !cols.contains kv.1) from rfl] at h
    exact h
  rw [List.all_eq_true] at h'
  intro kv hkv
  have := h' kv hkv
  simp only [Bool.and_eq_true, Bool.not_eq_true'] at this
  exact ⟨by simpa using this.1, by simpa using this.2⟩

/-- Helper: reading the input-column guard. -/
theorem inputColsOk_spec {cols : List String} (h : inputColsOk cols = true) :
    "success" ∉ cols ∧ "status_code" ∉ cols ∧ "message" ∉ cols := by
  simp only [inputColsOk, Bool.and_eq_true, Bool.not_eq_true'] at h
  exact ⟨by simpa using h.1.1, by simpa using h.1.2, by simpa using h.2⟩

/-- Helper: the payload of a returned result is the empty dict, except in
the 200 branch where it is the parsed body. -/
theorem get_json_data_shape (s : Series) (lat lon : Rat) (o : RemoteOutcome)
    (r : LookupResult) (h : s.get_json lat lon o = .ok r) :
    r.data = Json.obj [] ∨ o = .resp 200 (some r.data) := by
  cases o with
  | exn e =>
    rw [show s.get_json lat lon (.exn e) =
        .ok { success := false, status_code := 408,
              message := "Erro de conexão.", data := .obj [] } from rfl] at h
    cases h
    exact Or.inl rfl
  | resp code text =>
    by_cases h401 : code = 401
    · subst h401
      rw [show s.get_json lat lon (.resp 401 text) =
          .ok { success := false, status_code := 401,
                message := "Credenciais inválidas. Verifique se você forneceu o token de autenticação correto.",
                data := .obj [] } from rfl] at h
      cases h
      exact Or.inl rfl
    · by_cases h200 : code = 200
      · subst h200
        cases text with
        | some j =>
          rw [show s.get_json lat lon (.resp 200 (some j)) =
              .ok { success := true, status_code := 200,
                    message := "Sucesso.", data := j } from rfl] at h
          cases h
          exact Or.inr rfl
        | none =>
          rw [show s.get_json lat lon (.resp 200 none) =
              .error .jsonDecodeError from rfl] at h
          cases h
      · simp only [Series.get_json] at h
        rw [if_neg h401, if_neg h200] at h
        simp only [Except.ok.injEq] at h
        subst h
        exact Or.inl rfl

/-- Helper: reading the coordinate guard. -/
theorem attrNum_ok_of_rowCoordsOk {cols : List String} {row : List Cell}
    (h : rowCoordsOk cols row = true) :
    (∃ a, attrNum cols row "latitude" = .ok a) ∧
    (∃ b, attrNum cols row "longitude" = .ok b) := by
  simp only [rowCoordsOk, Bool.and_eq_true] at h
  constructor
  · cases ha : attrNum cols row "latitude" with
    | ok a => exact ⟨a, rfl⟩
    | error e => rw [ha] at h; exact absurd h.1 (by simp)
  · cases hb : attrNum cols row "longitude" with
    | ok b => exact ⟨b, rfl⟩
    | error e => rw [hb] at h; exact absurd h.2 (by simp)


/-- Helper: the fetch loop never aborts when every outcome has a
parseable-or-absent body: it returns one result per input row, in order,
and each result's payload is the empty dict or a 200 body. -/
theorem fetchRows_ok (s : Series) (cols : List String) (remote : Nat → RemoteOutcome)
    (hdec : ∀ i, remote i ≠ .resp 200 none) :
    ∀ (rows : List (List Cell)) (i : Nat), rows.all (rowCoordsOk cols) = true →
    ∃ rs : List LookupResult, fetchRows s cols remote i rows = .ok rs ∧
      rs.length = rows.length ∧
      ∀ r ∈ rs, r.data = Json.obj [] ∨ ∃ j, remote j = .resp 200 (some r.data) := by
  intro rows
  induction rows with
  | nil => exact fun i _ => ⟨[], rfl, rfl, fun r hr => absurd hr (List.not_mem_nil r)⟩
  | cons row rest ih =>
    intro i hall
    simp only [List.all_cons, Bool.and_eq_true] at hall
    obtain ⟨⟨a, ha⟩, ⟨b, hb⟩⟩ := attrNum_ok_of_rowCoordsOk hall.1
    obtain ⟨r, hr⟩ := get_json_total s a b (remote i) (hdec i)
    obtain ⟨rs, hrs, hlen, hmem⟩ := ih (i + 1) hall.2
    refine ⟨r :: rs, ?_, by simp [hlen], ?_⟩
    · simp only [fetchRows, ha, hb, hr, hrs, bind, Except.bind]
    · intro x hx
      rcases List.mem_cons.mp hx with hx | hx
      · subst hx
        rcases get_json_data_shape s a b (remote i) x hr with hd | hd
        · exact Or.inl hd
        · exact Or.inr ⟨i, hd⟩
      · exact hmem x hx

/-- Helper: every united key comes from some dict of the list. -/
theorem mem_unionKeys {k : String} :
    ∀ {ds : List Json}, k ∈ unionKeys ds → ∃ d ∈ ds, k ∈ d.kvs.map Prod.fst := by
  intro ds
  induction ds with
  | nil => intro h; cases h
  | cons d ds ih =>
    intro h
    simp only [unionKeys] at h
    rcases List.mem_append.mp h with h | h
    · exact ⟨d, List.mem_cons_self d ds, h⟩
    · obtain ⟨d', hd', hk⟩ := ih (List.mem_of_mem_filter h)
      exact ⟨d', List.mem_cons_of_mem d hd', hk⟩

/-- Helper: a left join keeps exactly the left frame's row count. -/
theorem joinRows_length :
    ∀ (as bs : List (List Cell)) (k : Nat), (joinRows as bs k).length = as.length := by
  intro as
  induction as with
  | nil => intro bs k; cases bs <;> rfl
  | cons r rs ih =>
    intro bs k
    cases bs with
    | nil => simp [joinRows, ih]
    | cons t ts => simp [joinRows, ih]

/-- Helper: the i-th joined row extends the i-th left row. -/
theorem joinRows_get? :
    ∀ (as bs : List (List Cell)) (k i : Nat), i < as.length →
      ∃ t, (joinRows as bs k).get? i = some (as.getD i [] ++ t) := by
  intro as
  induction as with
  | nil => intro bs k i h; exact absurd h (by simp)
  | cons r rs ih =>
    intro bs k i h
    cases bs with
    | nil =>
      cases i with
      | zero => exact ⟨List.replicate k Cell.na, rfl⟩
      | succ n => exact ih [] k n (by simpa using h)
    | cons t ts =>
      cases i with
      | zero => exact ⟨t, rfl⟩
      | succ n => exact ih ts k n (by simpa using h)


/-- Helper: on a nonempty response list whose payload keys avoid the
envelope and input columns, the expand-and-join steps of lines 133-135 /
156-158 succeed, preserve the row count, and produce only envelope or
payload-key columns. -/
theorem expandAndJoin_ok (r0 : LookupResult) (rest : List LookupResult) (extra : List String)
    (hkeys : ∀ r ∈ r0 :: rest, ∀ kv ∈ r.data.kvs, kv.1 ∉ envelopeCols ∧ kv.1 ∉ extra) :
    ∃ df : DataFrame, expandAndJoin (r0 :: rest) = .ok df ∧
      df.rows.length = rest.length + 1 ∧
      ∀ c ∈ df.columns, c ∈ (["success", "status_code", "message"] : List String) ∨ c ∉ extra := by
  have hK : ∀ c ∈ unionKeys ((r0 :: rest).map (fun r => r.data)), c ∉ envelopeCols ∧ c ∉ extra := by
    intro c hc
    obtain ⟨d, hd, hcd⟩ := mem_unionKeys hc
    obtain ⟨r, hr, rfl⟩ := List.mem_map.mp hd
    obtain ⟨kv, hkv, rfl⟩ := List.mem_map.mp hcd
    exact hkeys r hr kv hkv
  set datas := (r0 :: rest).map (fun r => r.data) with hdatas
  -- the data cells of the response frame expand to exactly the payloads
  have hcells : ((responseFrame (r0 :: rest)).col "data").map (fun cs => cs.map Cell.json) =
      some datas := by
    simp only [responseFrame, DataFrame.col]
    rw [show (["success", "status_code", "message", "data"].findIdx?
          (fun x => x == "data")) = some 3 from rfl]
    simp only [Option.map_some', Option.some.injEq, List.map_map, hdatas]
    rfl
  -- overlap check of the inner join is false
  have hdisj1 : ((responseFrame (r0 :: rest)).columns.any
      (fun c => (expandDicts datas).columns.contains c)) = false := by
    show ((responseFrame (r0 :: rest)).columns.any
      (fun c => (unionKeys datas).contains c)) = false
    rw [List.any_eq_false]
    intro c hc
    have : c ∉ unionKeys datas := fun hmem => (hK c hmem).1 (by simpa [responseFrame, envelopeCols] using hc)
    simp [this]
  obtain ⟨cs0, hcol, hcs0⟩ : ∃ cs0, (responseFrame (r0 :: rest)).col "data" = some cs0 ∧
      cs0.map Cell.json = datas := by
    cases hx : (responseFrame (r0 :: rest)).col "data" with
    | none => rw [hx] at hcells; cases hcells
    | some cs =>
      rw [hx] at hcells
      simp only [Option.map_some', Option.some.injEq] at hcells
      exact ⟨cs, rfl, hcells⟩
  set df1 : DataFrame :=
    ⟨(responseFrame (r0 :: rest)).columns ++ (expandDicts datas).columns,
     joinRows (responseFrame (r0 :: rest)).rows (expandDicts datas).rows
       (expandDicts datas).columns.length⟩ with hdf1
  have hjoin : (responseFrame (r0 :: rest)).join (expandDicts datas) = .ok df1 := by
    unfold DataFrame.join
    rw [if_neg (fun hcond => absurd (hdisj1 ▸ hcond) (by decide))]
  have hEAJ : expandAndJoin (r0 :: rest) = .ok (df1.drop "data") := by
    unfold expandAndJoin
    dsimp only
    rw [hcol]
    dsimp only
    simp only [bind, Except.bind]
    rw [hcs0, hjoin]
  have hdropcols : (df1.drop "data").columns =
      ["success", "status_code", "message"] ++ unionKeys datas := by
    simp only [DataFrame.drop]
    show List.filter (fun c => c != "data")
        (["success", "status_code", "message", "data"] ++ unionKeys datas) =
      ["success", "status_code", "message"] ++ unionKeys datas
    rw [List.filter_append]
    rw [show ((["success", "status_code", "message", "data"] : List String).filter
        (fun c => c != "data")) = ["success", "status_code", "message"] from rfl]
    congr 1
    apply List.filter_eq_self.mpr
    intro c hc
    exact bne_iff_ne.mpr (fun he => (hK c hc).1 (by rw [he]; simp [envelopeCols]))
  have hlen : (df1.drop "data").rows.length = rest.length + 1 := by
    simp only [DataFrame.drop, List.length_map]
    rw [joinRows_length]
    simp [responseFrame]
  refine ⟨df1.drop "data", hEAJ, hlen, ?_⟩
  intro c hc
  rw [hdropcols] at hc
  rcases List.mem_append.mp hc with hc | hc
  · exact Or.inl hc
  · exact Or.inr (hK c hc).2


/-- Helper: the whole `from_csv` pipeline on a nonempty, well-guarded
input: one output row per input row, each extending its input row. -/
theorem from_csv_pipeline (s : Series) (input : DataFrame) (remote : Nat → RemoteOutcome)
    (hne : input.rows ≠ [])
    (hcoords : input.rows.all (rowCoordsOk input.columns) = true)
    (hinput : inputColsOk input.columns = true)
    (hsafe : ∀ i, remoteSafe input.columns (remote i) = true) :
    ∃ df, s.from_csv input remote = .ok df ∧
      df.rows.length = input.rows.length ∧
      ∀ i, i < input.rows.length → ∃ t, df.rows.get? i = some (input.rows.getD i [] ++ t) := by
  obtain ⟨rs, hrs, hlen, hmem⟩ := fetchRows_ok s input.columns remote
      (fun i => remoteSafe_ne_decode (hsafe i)) input.rows 0 hcoords
  cases rs with
  | nil => exact absurd (List.length_eq_zero.mp hlen.symm) hne
  | cons r0 rest =>
    have hkeys : ∀ r ∈ r0 :: rest, ∀ kv ∈ r.data.kvs, kv.1 ∉ envelopeCols ∧ kv.1 ∉ input.columns := by
      intro r hr kv hkv
      rcases hmem r hr with hd | ⟨j, hj⟩
      · rw [hd] at hkv
        exact absurd hkv (List.not_mem_nil kv)
      · have hs := hsafe j
        rw [hj] at hs
        exact remoteSafe_keys hs kv hkv
    obtain ⟨df1, hdf1, hdf1len, hdf1cols⟩ := expandAndJoin_ok r0 rest input.columns hkeys
    have hdisj : (input.columns.any fun c => df1.columns.contains c) = false := by
      rw [List.any_eq_false]
      intro c hc
      have hnotin : c ∉ df1.columns := by
        intro hcd
        rcases hdf1cols c hcd with h3 | hx
        · simp only [List.mem_cons, List.not_mem_nil, or_false] at h3
          obtain ⟨h1, h2, h3'⟩ := inputColsOk_spec hinput
          rcases h3 with rfl | rfl | rfl
          · exact h1 hc
          · exact h2 hc
          · exact h3' hc
        · exact hx hc
      simp [hnotin]
    refine ⟨⟨input.columns ++ df1.columns, joinRows input.rows df1.rows df1.columns.length⟩,
      ?_, ?_, ?_⟩
    · unfold Series.from_csv
      rw [hrs]
      simp only [bind, Except.bind]
      rw [hdf1]
      dsimp only
      unfold DataFrame.join
      rw [if_neg (fun hcond => absurd (hdisj ▸ hcond) (by decide))]
    · exact joinRows_length input.rows df1.rows df1.columns.length
    · intro i hi
      exact joinRows_get? input.rows df1.rows df1.columns.length i hi

/-- C3 (amended): for every *nonempty* sequence of points — given to
`from_csv` as a parsed csv with numeric coordinates, or to `get` as a
single in-memory point — and any per-point outcomes that neither are a 200
response with an unparseable body (which would raise out of `get_json` and
abort the batch) nor carry payload keys colliding with the envelope or
input columns (which would make a pandas `join` raise), the resulting
table has exactly one row per input point, in input order: row i extends
input row i.  Per-point failures (transport errors, 401, other statuses)
do not skip or abort subsequent points.  The empty sequence instead
raises (see the counterexample). -/
theorem batch_row_count (s : Series) (input : DataFrame) (remote : Nat → RemoteOutcome)
    (hne : input.rows ≠ [])
    (hcoords : input.rows.all (rowCoordsOk input.columns) = true)
    (hinput : inputColsOk input.columns = true)
    (hsafe : ∀ i, remoteSafe input.columns (remote i) = true) :
    (∃ df, s.from_csv input remote = .ok df ∧
       df.rows.length = input.rows.length ∧
       ∀ i, i < input.rows.length → ∃ t, df.rows.get? i = some (input.rows.getD i [] ++ t)) ∧
    (∀ (lat lon : Rat) (lab : Option String),
       (∀ i, remoteSafe (inputFrame lat lon lab).columns (remote i) = true) →
       ∃ df, s.get lat lon lab remote = .ok df ∧ df.rows.length = 1 ∧
         ∃ t, df.rows.get? 0 = some ((inputFrame lat lon lab).rows.getD 0 [] ++ t)) := by
  constructor
  · exact from_csv_pipeline s input remote hne hcoords hinput hsafe
  · intro lat lon lab hsafe2
    have hget : s.get lat lon lab remote = s.from_csv (inputFrame lat lon lab) remote := rfl
    have hne2 : (inputFrame lat lon lab).rows ≠ [] := by cases lab <;> simp [inputFrame]
    have hco2 : (inputFrame lat lon lab).rows.all
        (rowCoordsOk (inputFrame lat lon lab).columns) = true := by
      cases lab <;> rfl
    have hic2 : inputColsOk (inputFrame lat lon lab).columns = true := by cases lab <;> rfl
    obtain ⟨df, h1, h2, h3⟩ := from_csv_pipeline s (inputFrame lat lon lab) remote hne2 hco2 hic2 hsafe2
    refine ⟨df, hget.trans h1, ?_, ?_⟩
    · rw [h2]; cases lab <;> rfl
    · exact h3 0 (by cases lab <;> simp [inputFrame])

/-- Witness for the amended C3 on the concrete two-point batch `csv2`,
whose second point suffers a transport failure. -/
theorem batch_row_count_witness :
    ∃ df, s0.from_csv csv2 remote2 = .ok df ∧
      df.rows.length = csv2.rows.length ∧
      ∀ i, i < csv2.rows.length → ∃ t, df.rows.get? i = some (csv2.rows.getD i [] ++ t) :=
  (batch_row_count s0 csv2 remote2
    (by simp [csv2]) rfl rfl
    (fun i => by unfold remote2; split <;> rfl)).1

/-! ## to_learn reshaping theorems -/

/-- Helper: a successful `mapM` preserves length. -/
theorem mapM_length {α β : Type} (f : α → Except PyError β) :
    ∀ (l : List α) (l' : List β), l.mapM f = .ok l' → l'.length = l.length := by
  intro l
  induction l with
  | nil =>
    intro l' h
    rw [List.mapM_nil] at h
    cases h
    rfl
  | cons a as ih =>
    intro l' h
    rw [List.mapM_cons] at h
    cases hfa : f a with
    | error e => rw [hfa] at h; simp [bind, Except.bind] at h
    | ok b =>
      rw [hfa] at h
      cases hrest : as.mapM f with
      | error e => rw [hrest] at h; simp [bind, Except.bind] at h
      | ok bs =>
        rw [hrest] at h
        simp only [bind, Except.bind, pure, Except.pure, Except.ok.injEq] at h
        subst h
        simp [ih bs hrest]

/-- Helper: a present column has one cell per row. -/
theorem col_length {df : DataFrame} {c : String} {cells : List Cell}
    (h : df.col c = some cells) : cells.length = df.rows.length := by
  unfold DataFrame.col at h
  cases hidx : df.columns.findIdx? (fun x => x == c) with
  | none => rw [hidx] at h; cases h
  | some j =>
    rw [hidx] at h
    simp only [Option.map_some', Option.some.injEq] at h
    subst h
    simp

/-- Helper: a column listed in `columns` can be selected. -/
theorem col_of_contains {df : DataFrame} {c : String}
    (h : df.columns.contains c = true) : ∃ cells, df.col c = some cells := by
  unfold DataFrame.col
  cases hidx : df.columns.findIdx? (fun x => x == c) with
  | some j => exact ⟨_, rfl⟩
  | none =>
    rw [List.findIdx?_eq_none_iff] at hidx
    have hmem : c ∈ df.columns := by simpa using h
    have := hidx c hmem
    simp at this


/-- Helper: the ok-path of `to_learn`, fully characterised — the reshaped
frame has the first kept row's date strings as header, one positional row
per kept row (shorter rows padded on the right), and then the label branch
of lines 179-180. -/
theorem to_learn_unfold (data : DataFrame) (learn : List (List Cell))
    (serieCells : List Cell) (lists : List (List Json)) (datasCells : List Cell)
    (datas : List Json) (header : List String)
    (hfs : filterSuccess data = .ok learn)
    (hne : learn.length ≠ 0)
    (hserie : (DataFrame.mk data.columns learn).col "listaSerie" = some serieCells)
    (hlists : serieCells.mapM Cell.arr = .ok lists)
    (hdatasCol : (DataFrame.mk data.columns learn).col "listaDatas" = some datasCells)
    (hdatas : (datasCells.getD 0 Cell.na).arr = .ok datas)
    (hheader : datas.mapM Json.colName = .ok header)
    (hwidth : header.length = lists.foldr (fun l m => max l.length m) 0) :
    to_learn data =
      if data.columns.contains "label" then
        match (DataFrame.mk data.columns learn).col "label" with
        | some labelCells =>
            (DataFrame.mk header (lists.map (fun l => l.map Cell.of ++
               List.replicate (header.length - l.length) Cell.na))).insert "label" labelCells
        | none => .error (.keyError "label")
      else
        .ok ⟨header, lists.map (fun l => l.map Cell.of ++
               List.replicate (header.length - l.length) Cell.na)⟩ := by
  unfold to_learn
  rw [hfs]
  simp only [bind, Except.bind]
  rw [if_neg hne]
  rw [hserie]
  dsimp only
  rw [hlists]
  dsimp only
  rw [hdatasCol]
  dsimp only
  rw [hdatas]
  dsimp only
  rw [hheader]
  dsimp only
  unfold frameOfLists
  rw [if_pos hwidth]
  dsimp only
  rw [show lists.foldr (fun l m => max l.length m) 0 = header.length from hwidth.symm]


/-- C7 counterexample: `raggedTable` has two success rows (so the claim
demands a returned table), but its success rows carry series of different
lengths — the first row's single date becomes the header while the longest
series has two values, so `pandas.DataFrame(lists, columns=...)` on line
177 raises ("1 columns passed, passed data had 2 columns") instead of
returning. -/
theorem to_learn_ragged_raises :
    filterSuccess raggedTable = .ok raggedTable.rows ∧
    to_learn raggedTable =
      .error (.assertionError "1 columns passed, passed data had 2 columns") :=
  ⟨rfl, rfl⟩

/-- C7 (amended): on a table with zero success rows `to_learn` fails with
the no-valid-data error.  On a table with at least one success row it
returns — *provided* the success rows' listaSerie cells are lists, the
first success row's listaDatas is a list of strings whose length equals
the longest listaSerie (as when every success row shares one date
sequence), and no date string is literally "label" — a table whose row
count equals the success-row count, with a label column iff the source
carried one.  Without the length proviso the code raises (see the
counterexample). -/
theorem to_learn_row_count (data : DataFrame) :
    (filterSuccess data = .ok [] →
      to_learn data = .error (.exception "Nenhuma das séries possuem dados válidos.")) ∧
    (∀ (learn : List (List Cell)) (serieCells : List Cell) (lists : List (List Json))
       (datasCells : List Cell) (datas : List Json) (header : List String),
       filterSuccess data = .ok learn →
       learn.length ≠ 0 →
       (DataFrame.mk data.columns learn).col "listaSerie" = some serieCells →
       serieCells.mapM Cell.arr = .ok lists →
       (DataFrame.mk data.columns learn).col "listaDatas" = some datasCells →
       (datasCells.getD 0 Cell.na).arr = .ok datas →
       datas.mapM Json.colName = .ok header →
       header.length = lists.foldr (fun l m => max l.length m) 0 →
       header.contains "label" = false →
       ∃ out, to_learn data = .ok out ∧ out.rows.length = learn.length ∧
         out.columns.contains "label" = data.columns.contains "label") := by
  constructor
  · intro h
    unfold to_learn
    rw [h]
    rfl
  · intro learn serieCells lists datasCells datas header hfs hne hserie hlists hdatasCol
      hdatas hheader hwidth hheaderlab
    have hlistlen : lists.length = learn.length := by
      rw [mapM_length Cell.arr serieCells lists hlists]
      exact col_length hserie
    rw [to_learn_unfold data learn serieCells lists datasCells datas header
      hfs hne hserie hlists hdatasCol hdatas hheader hwidth]
    by_cases hlab : data.columns.contains "label" = true
    · obtain ⟨labelCells, hlc⟩ := @col_of_contains (DataFrame.mk data.columns learn) "label" hlab
      rw [if_pos hlab, hlc]
      unfold DataFrame.insert
      dsimp only
      rw [if_neg (fun hcond => absurd (hheaderlab ▸ hcond) (by decide))]
      refine ⟨_, rfl, ?_, ?_⟩
      · have hlablen : labelCells.length = learn.length := col_length hlc
        simp [List.length_zip, hlablen, hlistlen]
      · rw [hlab]
        simp
    · rw [if_neg hlab]
      refine ⟨_, rfl, by simp [hlistlen], ?_⟩
      show header.contains "label" = data.columns.contains "label"
      rw [hheaderlab]
      exact (Bool.not_eq_true _).mp hlab |>.symm

/-- Witness for the amended C7 on `okTable` (two success rows out of
three, label column present). -/
theorem to_learn_row_count_witness :
    ∃ out, to_learn okTable = .ok out ∧ out.rows.length = 2 ∧
      out.columns.contains "label" = okTable.columns.contains "label" := by
  obtain ⟨out, h1, h2, h3⟩ :=
    (to_learn_row_count okTable).2 _ _ _ _ _ _ rfl (by decide) rfl rfl rfl rfl rfl rfl rfl
  exact ⟨out, h1, h2.trans rfl, h3⟩

/-- C8: when `to_learn` succeeds, the output's date columns are exactly
the first remaining (success) row's date sequence, used as the canonical
header; each remaining row's values are laid out positionally against that
header (shorter rows padded, never re-matched by date value); and when the
source carried a label column it is prepended as the first column. -/
theorem to_learn_reshape (data : DataFrame) (learn : List (List Cell))
    (serieCells : List Cell) (lists : List (List Json)) (datasCells : List Cell)
    (datas : List Json) (header : List String)
    (hfs : filterSuccess data = .ok learn)
    (hne : learn.length ≠ 0)
    (hserie : (DataFrame.mk data.columns learn).col "listaSerie" = some serieCells)
    (hlists : serieCells.mapM Cell.arr = .ok lists)
    (hdatasCol : (DataFrame.mk data.columns learn).col "listaDatas" = some datasCells)
    (hdatas : (datasCells.getD 0 Cell.na).arr = .ok datas)
    (hheader : datas.mapM Json.colName = .ok header)
    (hwidth : header.length = lists.foldr (fun l m => max l.length m) 0) :
    (data.columns.contains "label" = false →
       to_learn data = .ok ⟨header, lists.map (fun l => l.map Cell.of ++
         List.replicate (header.length - l.length) Cell.na)⟩) ∧
    (∀ labelCells, data.columns.contains "label" = true →
       (DataFrame.mk data.columns learn).col "label" = some labelCells →
       header.contains "label" = false →
       to_learn data = .ok ⟨"label" :: header,
         (labelCells.zip (lists.map (fun l => l.map Cell.of ++
            List.replicate (header.length - l.length) Cell.na))).map
           (fun p => p.1 :: p.2)⟩) := by
  have hu := to_learn_unfold data learn serieCells lists datasCells datas header
      hfs hne hserie hlists hdatasCol hdatas hheader hwidth
  constructor
  · intro hlab
    rw [hu, if_neg (fun hcond => absurd (hlab ▸ hcond) (by decide))]
  · intro labelCells hlab hlc hheaderlab
    rw [hu, if_pos hlab, hlc]
    unfold DataFrame.insert
    dsimp only
    rw [if_neg (fun hcond => absurd (hheaderlab ▸ hcond) (by decide))]

/-- Witness for C8 on `okTableNoLabel`. -/
theorem to_learn_reshape_witness :
    to_learn okTableNoLabel = .ok
      ⟨["d1", "d2"],
       [[Cell.of (.num 5), Cell.of (.num 6)], [Cell.of (.num 7), Cell.of (.num 8)]]⟩ :=
  (to_learn_reshape okTableNoLabel _ _ _ _ _ _ rfl (by decide) rfl rfl rfl rfl rfl rfl).1 rfl

end SatvegApi
